import Mathlib

/-!
Verification of the FlipFlop request-orchestration pipeline (`src/main.py`,
with the HTTP boundary of `src/fastapi_app/main.py`).

Python strings are modelled as lists of characters (`Str`): Python `len`
counts code points, matching `List.length`; slicing `s[:500]` is
`List.take 500`; `str.strip()` is `pystrip` (drop whitespace on both ends).
`os.getenv` results are `Option Str` (`none` = variable unset), and Python
truthiness of such a value (`if tail:`, `a or b`) is `isTruthy` / `pyOr`.

External effects (the chat-completion call and the image-backend POST) are
modelled by oracle values (`LLMOutcome`, `ImageOutcome`) describing what the
outside world answers, and every pipeline function returns, next to its
`Except` result, the list of outbound calls it actually issued (`ExtCall`),
so that "the image backend is never invoked" is a statement about the trace.

The source raises `HTTPException(502, detail)` at every failure site; the
specification names those sites `ConfigurationError`, `UpstreamError`,
`UpstreamEmptyError`, `ContractViolationError` and `ImageBackendError`.  The
embedding keeps one constructor per raise site, carrying the exact `detail`
string of the source.
-/

/-- Python strings as sequences of characters. -/
abbrev Str := List Char

/-- Python `str.strip()`: remove leading and trailing whitespace. -/
def pystrip (s : Str) : Str :=
  ((s.dropWhile Char.isWhitespace).reverse.dropWhile Char.isWhitespace).reverse

/-- Truthiness of an `os.getenv`-style value: `None` and `""` are falsy. -/
def isTruthy : Option Str → Bool
  | none => false
  | some s => !s.isEmpty

/-- Python `a or b` on two optional strings: `a` if truthy, else `b` as-is. -/
def pyOr (a b : Option Str) : Option Str :=
  if isTruthy a then a else b

/-- Typed error taxonomy of the pipeline; each constructor corresponds to one
`raise` site in `src/main.py` and carries its `detail` string. -/
inductive FlipFlopError where
  | configurationError (detail : String)
  | upstreamError (detail : String)
  | upstreamEmptyError (detail : String)
  | contractViolationError (detail : String)
  | imageBackendError (detail : String)
deriving DecidableEq, Repr

/-- Process-wide configuration: the environment variables read by
`src/main.py`. `none` means the variable is unset. -/
structure Env where
  azureOpenaiApiKey : Option Str
  openaiApiKey : Option Str
  openaiApikey : Option Str
  azureOpenaiEndpoint : Option Str
  azureOpenaiApiVersion : Option Str
  openaiBaseUrl : Option Str
  openaiApiBase : Option Str
  openaiModel : Option Str
  azureOpenaiDeployment : Option Str
  imageApiUrl : Option Str
deriving DecidableEq, Repr

/-- The request body (`FlipFlopRequest` pydantic model). -/
structure FlipFlopRequest where
  noun1 : Str
  noun2 : Str
  enforce_length : Bool
  request_image : Bool
  image_style_tail : Option Str
deriving DecidableEq, Repr

/-- The response body (`FlipFlopResponse` pydantic model). -/
structure FlipFlopResponse where
  paragraph : Str
  truncated : Bool
  image_prompt : Option Str
  image_url : Option Str
deriving DecidableEq, Repr

/-- The configured LLM client: `_build_llm_client` returns either an
`AzureOpenAI` client (when `AZURE_OPENAI_ENDPOINT` is truthy) or an
`OpenAI` client. -/
inductive LLMClient where
  | azure (api_version : Str) (azure_endpoint : Str) (api_key : Str)
  | openai (api_key : Str) (base_url : Option Str)
deriving DecidableEq, Repr

/-- The credential actually held by a built client. -/
def LLMClient.api_key : LLMClient → Str
  | .azure _ _ k => k
  | .openai k _ => k

/-- Default Azure API version used when `AZURE_OPENAI_API_VERSION` is unset
(the literal `"2024-05-01-preview"` of the source). -/
def defaultAzureApiVersion : Str := "2024-05-01-preview".toList

/-- Embedding of `_build_llm_client` (src/main.py:128-153): resolve the API
key as `AZURE_OPENAI_API_KEY or OPENAI_API_KEY or OPENAI_APIKEY`, fail when
the result is falsy, then pick the Azure client shape when
`AZURE_OPENAI_ENDPOINT` is truthy and the generic shape otherwise.  The
`openai`-package-not-installed branches are import-time concerns and are not
modelled. -/
def build_llm_client (env : Env) : Except FlipFlopError LLMClient :=
  let api_key := pyOr (pyOr env.azureOpenaiApiKey env.openaiApiKey) env.openaiApikey
  match api_key with
  | none => .error (.configurationError "Missing OPENAI_API_KEY or AZURE_OPENAI_API_KEY.")
  | some k =>
    if k.isEmpty then
      .error (.configurationError "Missing OPENAI_API_KEY or AZURE_OPENAI_API_KEY.")
    else if isTruthy env.azureOpenaiEndpoint then
      .ok (.azure (match env.azureOpenaiApiVersion with
                   | some v => if v.isEmpty then defaultAzureApiVersion else v
                   | none => defaultAzureApiVersion)
                  (env.azureOpenaiEndpoint.getD []) k)
    else
      .ok (.openai k (pyOr env.openaiBaseUrl env.openaiApiBase))

/-- Outbound network calls the pipeline can issue. -/
inductive ExtCall where
  | llmCompletion
  | imagePost
deriving DecidableEq, Repr

/-- Oracle for the chat-completion call: either the transport/provider layer
fails, or a completion arrives whose `choices` each carry an optional
`message.content` (`none` models a JSON `null` content). -/
inductive LLMOutcome where
  | transportError (msg : String)
  | completion (choices : List (Option Str))
deriving DecidableEq, Repr

/-- Embedding of `_call_flipflop_llm` (src/main.py:156-179): build the
client, issue one completion call, fail `UpstreamError` on transport
failure, `UpstreamEmptyError` on no choices or whitespace-only content, and
return the stripped content otherwise.  The second component is the trace of
outbound calls issued. -/
def call_flipflop_llm (env : Env) (outcome : LLMOutcome) :
    Except FlipFlopError Str × List ExtCall :=
  match build_llm_client env with
  | .error e => (.error e, [])
  | .ok _ =>
    match outcome with
    | .transportError msg =>
      (.error (.upstreamError ("LLM call failed: " ++ msg)), [.llmCompletion])
    | .completion choices =>
      match choices with
      | [] => (.error (.upstreamEmptyError "LLM returned no choices."), [.llmCompletion])
      | choice :: _ =>
        let content := choice.getD []
        let paragraph := pystrip content
        if paragraph.isEmpty then
          (.error (.upstreamEmptyError "LLM returned empty content."), [.llmCompletion])
        else
          (.ok paragraph, [.llmCompletion])

/-- Embedding of `_enforce_length` (src/main.py:182-195): when enforcing,
truncate to 500 characters if longer, then fail when the (possibly
truncated) paragraph is shorter than 450 characters. -/
def enforce_length (paragraph : Str) (enforce : Bool) :
    Except FlipFlopError (Str × Bool) :=
  if !enforce then
    .ok (paragraph, false)
  else
    let truncated := decide (paragraph.length > 500)
    let paragraph2 := if paragraph.length > 500 then paragraph.take 500 else paragraph
    if paragraph2.length < 450 then
      .error (.contractViolationError "Model returned text shorter than 450 characters.")
    else
      .ok (paragraph2, truncated)

/-- Embedding of `_maybe_build_image_prompt` (src/main.py:198-201): when the
tail is truthy (present and non-empty), append a space and the stripped
tail; otherwise return the paragraph unchanged. -/
def maybe_build_image_prompt (paragraph : Str) (tail : Option Str) : Str :=
  if isTruthy tail then
    paragraph ++ (' ' :: pystrip (tail.getD []))
  else
    paragraph

/-- Oracle for the image-backend POST: either the call fails (non-success
HTTP status, transport failure, or unparseable JSON), or a parsed JSON
object arrives, of which only the `url` and `image_url` fields are consulted
(`none` models an absent or `null` field). -/
inductive ImageOutcome where
  | failure (msg : String)
  | response (url : Option Str) (image_url : Option Str)
deriving DecidableEq, Repr

/-- Embedding of `_maybe_generate_image` (src/main.py:204-215): when
`IMAGE_API_URL` is falsy, return `None` without any call; otherwise POST
and either fail `ImageBackendError` or return
`data.get("url") or data.get("image_url")`. -/
def maybe_generate_image (env : Env) (outcome : ImageOutcome) :
    Except FlipFlopError (Option Str) × List ExtCall :=
  if isTruthy env.imageApiUrl then
    match outcome with
    | .failure msg =>
      (.error (.imageBackendError ("Image backend error: " ++ msg)), [.imagePost])
    | .response url image_url =>
      (.ok (pyOr url image_url), [.imagePost])
  else
    (.ok none, [])

/-- Embedding of the `/flipflop` handler `flipflop` (src/main.py:221-237):
call the LLM, enforce the length contract, and when an image is requested
build the prompt and call the image backend; any failure aborts the whole
request.  Returns the result (or error) together with the trace of outbound
calls. -/
def flipflopT (env : Env) (payload : FlipFlopRequest) (llm : LLMOutcome)
    (img : ImageOutcome) : Except FlipFlopError FlipFlopResponse × List ExtCall :=
  match call_flipflop_llm env llm with
  | (.error e, tr) => (.error e, tr)
  | (.ok paragraph, tr) =>
    match enforce_length paragraph payload.enforce_length with
    | .error e => (.error e, tr)
    | .ok (paragraph2, truncated) =>
      if payload.request_image then
        let image_prompt := maybe_build_image_prompt paragraph2 payload.image_style_tail
        match maybe_generate_image env img with
        | (.error e, tr2) => (.error e, tr ++ tr2)
        | (.ok image_url, tr2) =>
          (.ok ⟨paragraph2, truncated, some image_prompt, image_url⟩, tr ++ tr2)
      else
        (.ok ⟨paragraph2, truncated, none, none⟩, tr)

/-- The `/flipflop` handler's result, without the call trace. -/
def flipflop (env : Env) (payload : FlipFlopRequest) (llm : LLMOutcome)
    (img : ImageOutcome) : Except FlipFlopError FlipFlopResponse :=
  (flipflopT env payload llm img).1

/-- HTTP boundary responses of the fastapi_app handler. -/
inductive HttpOutcome where
  | success (body : FlipFlopResponse)
  | httpError (status : Nat) (detail : String)
deriving DecidableEq, Repr

/-- Rendering of a pipeline error at the HTTP boundary (`str(exc)`). -/
def FlipFlopError.detail : FlipFlopError → String
  | .configurationError d => d
  | .upstreamError d => d
  | .upstreamEmptyError d => d
  | .contractViolationError d => d
  | .imageBackendError d => d

/-- Embedding of the `/flipflop` handler of `src/fastapi_app/main.py`
(lines 29-47): a `FlipFlopError` raised by the pipeline is caught and
surfaced as an HTTP 502 upstream-failure response; a successful run is
returned as the response body. -/
def fastapi_flipflop_handler (outcome : Except FlipFlopError FlipFlopResponse) :
    HttpOutcome :=
  match outcome with
  | .error e => .httpError 502 e.detail
  | .ok r => .success r

/-- Modelled from the spec: `run_flipflop` of `flipflop_engine.core` is not
under `src/` (only `src/flipflop_engine/__init__.py` and its caller
`src/fastapi_app/main.py` are).  Per spec §4.5 it is the same orchestration
pipeline — call LLM, enforce length, optionally build the image prompt and
call the image backend — propagating every typed error unchanged, so it is
modelled by the orchestrator `flipflop` of `src/main.py`. -/
def run_flipflop (env : Env) (payload : FlipFlopRequest) (llm : LLMOutcome)
    (img : ImageOutcome) : Except FlipFlopError FlipFlopResponse :=
  flipflop env payload llm img

/-! ## Helper lemmas about the length enforcer -/

/-- A paragraph already inside `[450, 500]` passes enforcement unchanged. -/
lemma enforce_length_inrange (p : Str) (h1 : 450 ≤ p.length) (h2 : p.length ≤ 500) :
    enforce_length p true = .ok (p, false) := by
  unfold enforce_length
  have hgt : ¬ p.length > 500 := by omega
  have hlt : ¬ p.length < 450 := by omega
  simp [hgt, hlt]

/-- A paragraph shorter than 450 characters is rejected. -/
lemma enforce_length_short (p : Str) (h : p.length < 450) :
    enforce_length p true =
      .error (.contractViolationError "Model returned text shorter than 450 characters.") := by
  unfold enforce_length
  have hgt : ¬ p.length > 500 := by omega
  simp [hgt, h]

/-- A paragraph longer than 500 characters is truncated and flagged. -/
lemma enforce_length_long (p : Str) (h : p.length > 500) :
    enforce_length p true = .ok (p.take 500, true) := by
  unfold enforce_length
  have h450 : ¬ min 500 p.length < 450 := by omega
  simp [h, List.length_take, h450]

/-- Any accepted paragraph has length in `[450, 500]`. -/
lemma enforce_length_ok_bounds (p q : Str) (t : Bool)
    (h : enforce_length p true = .ok (q, t)) : 450 ≤ q.length ∧ q.length ≤ 500 := by
  by_cases hgt : p.length > 500
  · rw [enforce_length_long p hgt] at h
    have hq : q = p.take 500 := by
      cases h; rfl
    rw [hq, List.length_take]
    omega
  · by_cases hlt : p.length < 450
    · rw [enforce_length_short p hlt] at h
      cases h
    · rw [enforce_length_inrange p (by omega) (by omega)] at h
      have hq : q = p := by cases h; rfl
      rw [hq]
      omega

/-! ## Claims about the length enforcer -/

/-- C1: for every paragraph longer than 500 characters, enforcement returns
exactly its first 500 characters with `truncated = true`, and that prefix
has length exactly 500. -/
theorem spec_C1 (p : Str) (h : p.length > 500) :
    enforce_length p true = .ok (p.take 500, true) ∧ (p.take 500).length = 500 := by
  refine ⟨enforce_length_long p h, ?_⟩
  rw [List.length_take]
  omega

/-- Witness for C1 at a 501-character paragraph. -/
theorem spec_C1_witness :
    enforce_length (List.replicate 501 'a') true =
        .ok ((List.replicate 501 'a').take 500, true) ∧
      ((List.replicate 501 'a').take 500).length = 500 :=
  spec_C1 (List.replicate 501 'a') (by rw [List.length_replicate]; omega)

/-- C3: every paragraph with length in `[450, 500]` passes enforcement
unchanged with `truncated = false`; in particular lengths exactly 450 and
exactly 500 are accepted. -/
theorem spec_C3 (p : Str) (h1 : 450 ≤ p.length) (h2 : p.length ≤ 500) :
    enforce_length p true = .ok (p, false) :=
  enforce_length_inrange p h1 h2

/-- Witness for C3 at the two boundary lengths 450 and 500. -/
theorem spec_C3_witness :
    enforce_length (List.replicate 450 'a') true = .ok (List.replicate 450 'a', false) ∧
      enforce_length (List.replicate 500 'b') true = .ok (List.replicate 500 'b', false) :=
  ⟨spec_C3 (List.replicate 450 'a') (by rw [List.length_replicate])
     (by rw [List.length_replicate]; omega),
   spec_C3 (List.replicate 500 'b') (by rw [List.length_replicate]; omega)
     (by rw [List.length_replicate])⟩

/-- C10: enforcement is idempotent — whenever `enforce_length p true`
succeeds with `(q, t)`, a second application accepts `q` unchanged with
`truncated = false`. -/
theorem spec_C10 (p q : Str) (t : Bool) (h : enforce_length p true = .ok (q, t)) :
    enforce_length q true = .ok (q, false) := by
  obtain ⟨h1, h2⟩ := enforce_length_ok_bounds p q t h
  exact enforce_length_inrange q h1 h2

set_option maxRecDepth 8000 in
/-- Witness for C10: a 520-character paragraph is truncated on the first
pass and accepted unchanged on the second. -/
theorem spec_C10_witness :
    enforce_length ((List.replicate 520 'a').take 500) true =
      .ok ((List.replicate 520 'a').take 500, false) :=
  spec_C10 (List.replicate 520 'a') ((List.replicate 520 'a').take 500) true (by rfl)

/-! ## Helper lemmas about stripping and fixtures for concrete runs -/

/-- Dropping leading whitespace from a run of a non-whitespace character
changes nothing. -/
lemma dropWhile_whitespace_replicate (n : Nat) (c : Char)
    (hc : c.isWhitespace = false) :
    List.dropWhile Char.isWhitespace (List.replicate n c) = List.replicate n c := by
  cases n with
  | zero => rfl
  | succ m => simp [List.replicate_succ, List.dropWhile_cons, hc]

/-- Stripping a run of a non-whitespace character changes nothing. -/
lemma pystrip_replicate (n : Nat) (c : Char) (hc : c.isWhitespace = false) :
    pystrip (List.replicate n c) = List.replicate n c := by
  unfold pystrip
  rw [dropWhile_whitespace_replicate n c hc, List.reverse_replicate,
    dropWhile_whitespace_replicate n c hc, List.reverse_replicate]

/-- Example configuration: only `OPENAI_API_KEY` is set. -/
def envEx : Env := ⟨none, some "sk-test".toList, none, none, none, none, none, none, none, none⟩

/-- The client `_build_llm_client` builds from `envEx`. -/
def clientEx : LLMClient := .openai "sk-test".toList none

/-- Example request with default flags (`enforce_length=true`,
`request_image=false`). -/
def reqEx : FlipFlopRequest := ⟨"cat".toList, "dog".toList, true, false, none⟩

/-! ## Claim C2: short paragraphs are contract violations -/

/-- C2: every paragraph whose length after any truncation is below 450
characters (truncation only ever produces length-500 output, so this is
exactly length < 450) is rejected with `ContractViolationError`; and in the
pipeline, a 400-character LLM paragraph under `enforce_length=true` makes
the whole run fail with `ContractViolationError`. -/
theorem spec_C2 :
    (∀ p : Str, p.length < 450 →
      enforce_length p true =
        .error (.contractViolationError "Model returned text shorter than 450 characters.")) ∧
    (∀ (env : Env) (payload : FlipFlopRequest) (content : Str) (img : ImageOutcome)
      (c : LLMClient), build_llm_client env = .ok c → payload.enforce_length = true →
      (pystrip content).length = 400 →
      flipflop env payload (.completion [some content]) img =
        .error (.contractViolationError "Model returned text shorter than 450 characters.")) := by
  refine ⟨fun p h => enforce_length_short p h, ?_⟩
  intro env payload content img c hc he hlen
  have hshort := enforce_length_short (pystrip content) (by omega)
  have hne : (pystrip content).isEmpty = false := by
    cases hp : pystrip content with
    | nil => rw [hp] at hlen; simp at hlen
    | cons a l => simp
  unfold flipflop flipflopT call_flipflop_llm
  rw [hc, he]
  simp [hne, hshort]

set_option maxRecDepth 4000 in
/-- Witness for C2: a 400-character paragraph is rejected both by the
enforcer alone and by the whole pipeline. -/
theorem spec_C2_witness :
    enforce_length (List.replicate 400 'a') true =
        .error (.contractViolationError "Model returned text shorter than 450 characters.") ∧
      flipflop envEx reqEx (.completion [some (List.replicate 400 'a')]) (.response none none) =
        .error (.contractViolationError "Model returned text shorter than 450 characters.") :=
  ⟨spec_C2.1 (List.replicate 400 'a') (by rw [List.length_replicate]; omega),
   spec_C2.2 envEx reqEx (List.replicate 400 'a') (.response none none) clientEx rfl rfl
     (by rw [pystrip_replicate 400 'a' rfl, List.length_replicate])⟩

/-! ## Claim C4: the image prompt builder -/

/-- C4 counterexample: a whitespace-only (hence truthy) tail does not leave
the paragraph unchanged — the built prompt gains a trailing space. -/
theorem spec_C4_counterexample :
    maybe_build_image_prompt ['x'] (some [' ']) = ['x', ' '] ∧
      maybe_build_image_prompt ['x'] (some [' ']) ≠ ['x'] := by
  decide

/-- C4 as amended: with an absent or empty tail the paragraph is returned
exactly; with any non-empty tail (whitespace-only included) the prompt is
the paragraph, a space, and the stripped tail — so a whitespace-only tail
yields the paragraph plus a trailing space, not the paragraph itself. -/
theorem spec_C4 :
    (∀ p : Str, maybe_build_image_prompt p none = p) ∧
    (∀ p : Str, maybe_build_image_prompt p (some []) = p) ∧
    (∀ p t : Str, t ≠ [] →
      maybe_build_image_prompt p (some t) = p ++ ' ' :: pystrip t) := by
  refine ⟨fun p => rfl, fun p => rfl, fun p t ht => ?_⟩
  have htr : isTruthy (some t) = true := by
    cases t with
    | nil => exact absurd rfl ht
    | cons a l => rfl
  unfold maybe_build_image_prompt
  rw [htr]
  rfl

/-- Witness for C4 (amended) at concrete paragraph and tails. -/
theorem spec_C4_witness :
    maybe_build_image_prompt ['p'] none = ['p'] ∧
      maybe_build_image_prompt ['p'] (some []) = ['p'] ∧
      maybe_build_image_prompt ['p'] (some ['s']) = ['p'] ++ ' ' :: pystrip ['s'] :=
  ⟨spec_C4.1 ['p'], spec_C4.2.1 ['p'], spec_C4.2.2 ['p'] ['s'] (by decide)⟩

/-! ## Claim C5: transport failure of the LLM call -/

/-- C5: when the configured LLM call fails at the transport/provider level,
the whole pipeline fails with `UpstreamError` carrying the cause, the trace
holds only the LLM call (the image backend is never invoked), and no
partial result is produced. -/
theorem spec_C5 (env : Env) (payload : FlipFlopRequest) (msg : String)
    (img : ImageOutcome) (c : LLMClient) (h : build_llm_client env = .ok c) :
    flipflopT env payload (.transportError msg) img =
      (.error (.upstreamError ("LLM call failed: " ++ msg)), [.llmCompletion]) := by
  unfold flipflopT call_flipflop_llm
  rw [h]

/-- Witness for C5 at a concrete environment and failure message. -/
theorem spec_C5_witness :
    flipflopT envEx reqEx (.transportError "boom") (.response none none) =
      (.error (.upstreamError ("LLM call failed: " ++ "boom")), [.llmCompletion]) :=
  spec_C5 envEx reqEx "boom" (.response none none) clientEx (by rfl)

/-! ## Helper lemmas about credential resolution -/

/-- Python `or` keeps a truthy left operand. -/
lemma pyOr_of_truthy (a b : Option Str) (h : isTruthy a = true) : pyOr a b = a := by
  simp [pyOr, h]

/-- Python `or` falls through a falsy left operand. -/
lemma pyOr_of_falsy (a b : Option Str) (h : isTruthy a = false) : pyOr a b = b := by
  simp [pyOr, h]

/-- With every recognized key name falsy, client construction fails with the
missing-key configuration error. -/
lemma build_llm_client_missing_key (env : Env)
    (h1 : isTruthy env.azureOpenaiApiKey = false)
    (h2 : isTruthy env.openaiApiKey = false)
    (h3 : isTruthy env.openaiApikey = false) :
    build_llm_client env =
      .error (.configurationError "Missing OPENAI_API_KEY or AZURE_OPENAI_API_KEY.") := by
  unfold build_llm_client
  rw [pyOr_of_falsy _ _ h1, pyOr_of_falsy _ _ h2]
  cases hC : env.openaiApikey with
  | none => rfl
  | some k =>
    have hk : k.isEmpty = true := by
      rw [hC] at h3
      simpa [isTruthy] using h3
    simp [hk]

/-- A successfully built client holds exactly the resolved key
`AZURE_OPENAI_API_KEY or OPENAI_API_KEY or OPENAI_APIKEY`. -/
lemma build_llm_client_api_key (env : Env) (c : LLMClient)
    (h : build_llm_client env = .ok c) :
    pyOr (pyOr env.azureOpenaiApiKey env.openaiApiKey) env.openaiApikey =
      some c.api_key := by
  unfold build_llm_client at h
  cases hA : pyOr (pyOr env.azureOpenaiApiKey env.openaiApiKey) env.openaiApikey with
  | none => rw [hA] at h; cases h
  | some k =>
    rw [hA] at h
    by_cases hk : k.isEmpty
    · simp [hk] at h
    · simp [hk] at h
      split at h <;> (cases h; rfl)

/-! ## Claim C6: API-key configuration -/

/-- C6: when none of the recognized key names is truthy the client adapter
fails with the configuration error, and through the HTTP handler that
failure surfaces as a 502 upstream-failure response; when a key is present
it is resolved in priority order `AZURE_OPENAI_API_KEY`, then
`OPENAI_API_KEY`, then the fallback `OPENAI_APIKEY`. -/
theorem spec_C6 :
    (∀ env : Env, isTruthy env.azureOpenaiApiKey = false →
      isTruthy env.openaiApiKey = false → isTruthy env.openaiApikey = false →
      build_llm_client env =
          .error (.configurationError "Missing OPENAI_API_KEY or AZURE_OPENAI_API_KEY.") ∧
        ∀ (payload : FlipFlopRequest) (llm : LLMOutcome) (img : ImageOutcome),
          fastapi_flipflop_handler (run_flipflop env payload llm img) =
            .httpError 502 "Missing OPENAI_API_KEY or AZURE_OPENAI_API_KEY.") ∧
    (∀ (env : Env) (c : LLMClient), build_llm_client env = .ok c →
      (isTruthy env.azureOpenaiApiKey = true → env.azureOpenaiApiKey = some c.api_key) ∧
      (isTruthy env.azureOpenaiApiKey = false → isTruthy env.openaiApiKey = true →
        env.openaiApiKey = some c.api_key) ∧
      (isTruthy env.azureOpenaiApiKey = false → isTruthy env.openaiApiKey = false →
        env.openaiApikey = some c.api_key)) := by
  constructor
  · intro env h1 h2 h3
    have hb := build_llm_client_missing_key env h1 h2 h3
    refine ⟨hb, ?_⟩
    intro payload llm img
    unfold fastapi_flipflop_handler run_flipflop flipflop flipflopT call_flipflop_llm
    rw [hb]
    rfl
  · intro env c h
    have hres := build_llm_client_api_key env c h
    refine ⟨?_, ?_, ?_⟩
    · intro hA
      rw [pyOr_of_truthy _ _ hA, pyOr_of_truthy _ _ hA] at hres
      exact hres
    · intro hA hB
      rw [pyOr_of_falsy _ _ hA, pyOr_of_truthy _ _ hB] at hres
      exact hres
    · intro hA hB
      rw [pyOr_of_falsy _ _ hA, pyOr_of_falsy _ _ hB] at hres
      exact hres

/-- Environment with no key set at all. -/
def envNone : Env := ⟨none, none, none, none, none, none, none, none, none, none⟩

/-- Environment with all three key names set. -/
def envA : Env :=
  ⟨some "ak".toList, some "bk".toList, some "ck".toList, none, none, none, none, none, none, none⟩

/-- Environment with the second and third key names set. -/
def envB : Env :=
  ⟨none, some "bk".toList, some "ck".toList, none, none, none, none, none, none, none⟩

/-- Environment with only the fallback key name set. -/
def envC : Env :=
  ⟨none, none, some "ck".toList, none, none, none, none, none, none, none⟩

/-- Witness for C6: the missing-key failure and its 502 surfacing, and one
instance of each priority rank. -/
theorem spec_C6_witness :
    build_llm_client envNone =
        .error (.configurationError "Missing OPENAI_API_KEY or AZURE_OPENAI_API_KEY.") ∧
      fastapi_flipflop_handler
          (run_flipflop envNone reqEx (.completion []) (.response none none)) =
        .httpError 502 "Missing OPENAI_API_KEY or AZURE_OPENAI_API_KEY." ∧
      envA.azureOpenaiApiKey = some (LLMClient.api_key (.openai "ak".toList none)) ∧
      envB.openaiApiKey = some (LLMClient.api_key (.openai "bk".toList none)) ∧
      envC.openaiApikey = some (LLMClient.api_key (.openai "ck".toList none)) :=
  ⟨(spec_C6.1 envNone rfl rfl rfl).1,
   (spec_C6.1 envNone rfl rfl rfl).2 reqEx (.completion []) (.response none none),
   (spec_C6.2 envA (.openai "ak".toList none) rfl).1 rfl,
   (spec_C6.2 envB (.openai "bk".toList none) rfl).2.1 rfl rfl,
   (spec_C6.2 envC (.openai "ck".toList none) rfl).2.2 rfl rfl⟩

/-! ## Claim C7: unconfigured image backend -/

/-- With `IMAGE_API_URL` unset, the image adapter answers `None` at once,
issuing no call. -/
lemma maybe_generate_image_unconfigured (env : Env) (img : ImageOutcome)
    (h : env.imageApiUrl = none) : maybe_generate_image env img = (.ok none, []) := by
  simp [maybe_generate_image, h, isTruthy]

/-- C7: with no image-backend endpoint configured, `generate` returns
`None` immediately, without error and without issuing any HTTP call; and a
successful pipeline run with `request_image=true` then carries
`image_url = None` while `image_prompt` is still set. -/
theorem spec_C7 :
    (∀ (env : Env) (img : ImageOutcome), env.imageApiUrl = none →
      maybe_generate_image env img = (.ok none, [])) ∧
    (∀ (env : Env) (payload : FlipFlopRequest) (llm : LLMOutcome) (img : ImageOutcome)
      (r : FlipFlopResponse), env.imageApiUrl = none → payload.request_image = true →
      flipflop env payload llm img = .ok r →
      r.image_url = none ∧ r.image_prompt ≠ none) := by
  refine ⟨fun env img h => maybe_generate_image_unconfigured env img h, ?_⟩
  intro env payload llm img r hurl hreq hrun
  unfold flipflop flipflopT at hrun
  split at hrun
  · simp at hrun
  · split at hrun
    · simp at hrun
    · rw [hreq] at hrun
      split at hrun
      · split at hrun
        · rename_i e tr2 heq
          rw [maybe_generate_image_unconfigured env img hurl] at heq
          simp at heq
        · rename_i image_url tr2 heq
          rw [maybe_generate_image_unconfigured env img hurl] at heq
          simp at heq
          obtain ⟨h1, h2⟩ := heq
          simp at hrun
          rw [← hrun]
          simp [← h1]
      · rename_i hfalse
        exact absurd rfl hfalse

/-- A 450-character paragraph used by the concrete pipeline runs. -/
def para450 : Str := List.replicate 450 'a'

/-- Example request asking for an image, with no style tail. -/
def reqImgEx : FlipFlopRequest := ⟨"cat".toList, "dog".toList, true, true, none⟩

set_option maxRecDepth 8000 in
/-- Witness for C7: a concrete unconfigured-backend call and a concrete
successful pipeline run with `request_image=true`. -/
theorem spec_C7_witness :
    maybe_generate_image envEx (.failure "down") = (.ok none, []) ∧
      ((⟨para450, false, some para450, none⟩ : FlipFlopResponse).image_url = none ∧
        (⟨para450, false, some para450, none⟩ : FlipFlopResponse).image_prompt ≠ none) :=
  ⟨spec_C7.1 envEx (.failure "down") rfl,
   spec_C7.2 envEx reqImgEx (.completion [some para450]) (.response none none)
     ⟨para450, false, some para450, none⟩ rfl rfl (by rfl)⟩

/-! ## Claim C8: URL extraction from the image-backend response -/

/-- Environment with a key and a configured image backend. -/
def envImg : Env :=
  ⟨none, some "sk-test".toList, none, none, none, none, none, none, none,
    some "http://img".toList⟩

/-- C8 counterexample: on a successful response whose `url` field is
present but empty and whose `image_url` field holds a URL, the adapter does
not extract the `url` field's value — it falls back to `image_url`, so the
claimed extraction order ("`url` whenever present") is false here. -/
theorem spec_C8_counterexample :
    (maybe_generate_image envImg (.response (some []) (some "http://x/y.png".toList))).1 =
        .ok (some "http://x/y.png".toList) ∧
      (some "http://x/y.png".toList : Option Str) ≠ some ([] : Str) :=
  ⟨rfl, by decide⟩

/-- C8 as amended: the adapter returns the `url` field's value when that
value is non-empty; when `url` is absent (or `null`) or empty it returns
the `image_url` field's value as-is; in particular when neither field is
present it returns `None`, not an error. -/
theorem spec_C8 (env : Env) (h : isTruthy env.imageApiUrl = true) :
    (∀ (u : Str) (iu : Option Str), u ≠ [] →
      maybe_generate_image env (.response (some u) iu) = (.ok (some u), [.imagePost])) ∧
    (∀ iu : Option Str,
      maybe_generate_image env (.response none iu) = (.ok iu, [.imagePost])) ∧
    (∀ iu : Option Str,
      maybe_generate_image env (.response (some []) iu) = (.ok iu, [.imagePost])) ∧
    maybe_generate_image env (.response none none) = (.ok none, [.imagePost]) := by
  refine ⟨?_, ?_, ?_, ?_⟩
  · intro u iu hu
    have ht : isTruthy (some u) = true := by
      cases u with
      | nil => exact absurd rfl hu
      | cons a l => rfl
    simp [maybe_generate_image, h, pyOr_of_truthy _ _ ht]
  · intro iu
    simp [maybe_generate_image, h, pyOr_of_falsy none iu rfl]
  · intro iu
    simp [maybe_generate_image, h, pyOr_of_falsy (some []) iu rfl]
  · simp [maybe_generate_image, h, pyOr_of_falsy none none rfl]

/-- Witness for C8 (amended) at a concrete environment and responses. -/
theorem spec_C8_witness :
    maybe_generate_image envImg (.response (some ['u']) (some ['v'])) =
        (.ok (some ['u']), [.imagePost]) ∧
      maybe_generate_image envImg (.response none (some ['v'])) =
        (.ok (some ['v']), [.imagePost]) ∧
      maybe_generate_image envImg (.response (some []) (some ['v'])) =
        (.ok (some ['v']), [.imagePost]) ∧
      maybe_generate_image envImg (.response none none) = (.ok none, [.imagePost]) :=
  ⟨(spec_C8 envImg rfl).1 ['u'] (some ['v']) (by decide),
   (spec_C8 envImg rfl).2.1 (some ['v']),
   (spec_C8 envImg rfl).2.2.1 (some ['v']),
   (spec_C8 envImg rfl).2.2.2⟩

/-! ## Claim C9: result invariants of a successful run -/

/-- C9: every successful pipeline result has `image_prompt` set exactly
when `request_image` was true, and never has `image_url` set without
`image_prompt` set. -/
theorem spec_C9 (env : Env) (payload : FlipFlopRequest) (llm : LLMOutcome)
    (img : ImageOutcome) (r : FlipFlopResponse)
    (h : flipflop env payload llm img = .ok r) :
    (r.image_prompt ≠ none ↔ payload.request_image = true) ∧
      (r.image_url ≠ none → r.image_prompt ≠ none) := by
  unfold flipflop flipflopT at h
  split at h
  · simp at h
  · split at h
    · simp at h
    · by_cases hreq : payload.request_image = true
      · rw [hreq] at h
        split at h
        · split at h
          · simp at h
          · simp at h
            rw [← h]
            simp [hreq]
        · rename_i hfalse
          exact absurd rfl hfalse
      · have hreq' : payload.request_image = false := by
          cases hb : payload.request_image
          · rfl
          · exact absurd hb hreq
        rw [hreq'] at h
        simp at h
        rw [← h]
        simp [hreq']

set_option maxRecDepth 8000 in
/-- Witness for C9: a concrete successful run with `request_image=true`, a
configured image backend, and a returned URL. -/
theorem spec_C9_witness :
    ((⟨para450, false, some para450, some ['u']⟩ : FlipFlopResponse).image_prompt ≠ none ↔
        reqImgEx.request_image = true) ∧
      ((⟨para450, false, some para450, some ['u']⟩ : FlipFlopResponse).image_url ≠ none →
        (⟨para450, false, some para450, some ['u']⟩ : FlipFlopResponse).image_prompt ≠ none) :=
  spec_C9 envImg reqImgEx (.completion [some para450]) (.response (some ['u']) none)
    ⟨para450, false, some para450, some ['u']⟩ (by rfl)
